import Mathlib

/-!
Verification of the netatmo temperature-automation core against its
natural-language specification.  The TypeScript source is shallowly
embedded: pure algorithms become Lean functions, effectful handlers become
functions over an explicit environment returning `Except` together with a
trace of the external actions they perform.  Temperatures and setpoints
(JS numbers used only through comparison and subtraction) are modelled as
rationals; unix timestamps as integers.
-/

namespace NetatmoTemp

/-! ## Drift detector (src/lib/netatmo.ts, `detectDrift` and friends) -/

/-- One historical sample, as produced by `parseMeasureData`. -/
structure MeasurePoint where
  timestamp : Int
  temperature : ℚ
  setpoint : ℚ
  deriving Repr, DecidableEq

/-- Detector output record (src/types.ts `DriftDetection`): optional fields
are populated only on a positive detection. -/
structure DriftDetection where
  isDrifting : Bool
  setpointDropTime : Option Int := none
  tempAtDrop : Option ℚ := none
  currentTemp : Option ℚ := none
  tempRise : Option ℚ := none
  minutesSinceDrop : Option Int := none
  deriving Repr, DecidableEq

/-- The negative answer `\x7b isDrifting: false \x7d`. -/
def noDrift : DriftDetection := { isDrifting := false }

/-- JavaScript `Math.round`: round half toward positive infinity. -/
def jsRound (q : ℚ) : Int := ⌊q + 1/2⌋

/-- Evaluation of the single most recent setpoint drop found by the scan:
`c` is the point at which the setpoint dropped, `cur` the last point of the
series (`currentPoint` in the source). -/
def evalDrop (cur c : MeasurePoint) (serverTime : Int) (minSeconds minTempRise : ℚ) :
    DriftDetection :=
  let secondsSinceDrop : ℚ := ((serverTime - c.timestamp : Int) : ℚ)
  if minSeconds ≤ secondsSinceDrop then
    let tempAtDrop := c.temperature
    let tempRise := cur.temperature - tempAtDrop
    if minTempRise ≤ tempRise then
      { isDrifting := true
        setpointDropTime := some c.timestamp
        tempAtDrop := some tempAtDrop
        currentTemp := some cur.temperature
        tempRise := some tempRise
        minutesSinceDrop := some (jsRound (secondsSinceDrop / 60)) }
    else noDrift
  else noDrift

/-- The backward scan of `detectDrift`, acting on the reversed point list:
it walks adjacent pairs `(curr, prev)` from the most recent end and stops at
the first pair where the setpoint dropped (`curr.setpoint < prev.setpoint`),
returning `evalDrop` there; if no drop is found it reports not drifting. -/
def scanDrop (cur : MeasurePoint) (serverTime : Int) (minSeconds minTempRise : ℚ) :
    List MeasurePoint → DriftDetection
  | c :: p :: rest =>
      if c.setpoint < p.setpoint then
        evalDrop cur c serverTime minSeconds minTempRise
      else
        scanDrop cur serverTime minSeconds minTempRise (p :: rest)
  | _ => noDrift

/-- Source function `NetatmoClient.detectDrift` (src/lib/netatmo.ts lines 356-403). -/
def detectDrift (points : List MeasurePoint) (serverTime : Int)
    (minMinutesSinceDrop : ℚ := 10) (minTempRise : ℚ := 1/2) : DriftDetection :=
  if points.length < 2 then noDrift
  else
    match points.getLast? with
    | none => noDrift
    | some cur =>
        scanDrop cur serverTime (minMinutesSinceDrop * 60) minTempRise points.reverse

/-! ## Measurement parsing (src/lib/netatmo.ts, `parseMeasureData`) -/

/-- One vendor time-series bucket: `\x7b beg_time, step_time, value \x7d`
where `value` is a list of `[temperature, setpoint]` pairs. -/
structure RoomMeasureSeries where
  beg_time : Int
  step_time : Int
  value : List (ℚ × ℚ)
  deriving Repr, DecidableEq

/-- Vendor `RoomMeasureResponse` restricted to the `body` field the code uses. -/
structure RoomMeasureResponse where
  body : List RoomMeasureSeries
  deriving Repr, DecidableEq

/-- Stable insertion of one point into a timestamp-sorted list (new point
goes after existing points with an equal or smaller timestamp, matching the
stability of the JS ascending comparator sort). -/
def insertPointSorted (p : MeasurePoint) : List MeasurePoint → List MeasurePoint
  | [] => [p]
  | q :: rest =>
      if q.timestamp ≤ p.timestamp then q :: insertPointSorted p rest
      else p :: q :: rest

/-- Flatten vendor buckets into points `beg_time + i*step_time` and sort
ascending by timestamp (`parseMeasureData`, src/lib/netatmo.ts 328-345). -/
def parseMeasureData (response : RoomMeasureResponse) : List MeasurePoint :=
  let points := response.body.flatMap fun series =>
    series.value.enum.map fun iv =>
      { timestamp := series.beg_time + (iv.1 : Int) * series.step_time
        temperature := iv.2.1
        setpoint := iv.2.2 }
  points.foldl (fun acc p => insertPointSorted p acc) []

/-! ## Mode-write request construction (src/lib/netatmo.ts 239-288) -/

/-- The parameters of one `/setroomthermpoint` request as assembled by
`setRoomThermPoint`: `temp` is attached only in manual mode, `endtime` only
when supplied. -/
structure ThermPointRequest where
  home_id : String
  room_id : String
  mode : String
  temp : Option ℚ
  endtime : Option Int
  deriving Repr, DecidableEq

/-- Source function `NetatmoClient.setRoomThermPoint`, reduced to the request it posts. -/
def setRoomThermPoint (homeId roomId : String) (mode : String)
    (temp : Option ℚ) (endtime : Option Int) : ThermPointRequest :=
  { home_id := homeId
    room_id := roomId
    mode := mode
    temp := if mode = "manual" then temp else none
    endtime := endtime }

/-- Source function `NetatmoClient.setRoomToMax` (src/lib/netatmo.ts 275-280): base time is
the supplied server time when present, otherwise the current wall clock
`now`; the request always carries `endtime = base + 60`. -/
def setRoomToMax (homeId roomId : String) (serverTime : Option Int) (now : Int) :
    ThermPointRequest :=
  let baseTime := serverTime.getD now
  let endtime := baseTime + 60
  setRoomThermPoint homeId roomId "max" none (some endtime)

/-- Source function `NetatmoClient.setRoomToHome` (src/lib/netatmo.ts 285-288). -/
def setRoomToHome (homeId roomId : String) : ThermPointRequest :=
  setRoomThermPoint homeId roomId "home" none none

/-! ## Control loop (src/index.ts, the `/check` handler past authentication) -/

/-- One discovered thermostat (src/types.ts `ThermostatInfo`). -/
structure ThermostatInfo where
  homeId : String
  homeName : String
  roomId : String
  roomName : String
  currentTemp : ℚ
  setpoint : ℚ
  mode : String
  reachable : Bool
  serverTime : Int
  deriving Repr, DecidableEq

/-- The contract carried by the delayed QStash callback
(src/types.ts `ResetPayload`). -/
structure ResetPayload where
  homeId : String
  roomId : String
  originalSetpoint : ℚ
  homeName : Option String
  roomName : Option String
  deriving Repr, DecidableEq

/-- External actions a handler can perform, recorded as a trace. -/
inductive Action where
  | setHome (homeId roomId : String)
  | setMax (homeId roomId : String) (serverTime : Option Int)
  | getMeasure (homeId roomId : String) (dateBegin dateEnd : Int)
  | logEvent (etype homeId roomId : String) (currentTemp setpoint : ℚ)
  | scheduleReset (payload : ResetPayload)
  | getStatus (homeId : String)
  deriving Repr, DecidableEq

/-- Whether a trace contains a delayed-callback scheduling action. -/
def hasScheduleReset (trace : List Action) : Bool :=
  trace.any fun a => match a with
    | .scheduleReset _ => true
    | _ => false

/-- Whether a trace contains a measurement fetch. -/
def hasGetMeasure (trace : List Action) : Bool :=
  trace.any fun a => match a with
    | .getMeasure _ _ _ _ => true
    | _ => false

/-- Drift diagnostics attached to a per-unit result (src/index.ts 55-59). -/
structure DriftInfo where
  tempAtDrop : ℚ
  tempRise : ℚ
  minutesSinceDrop : Int
  deriving Repr, DecidableEq

/-- One per-unit entry of the `results` array in the `/check` response. -/
structure UnitResult where
  home : String
  room : String
  currentTemp : ℚ
  setpoint : ℚ
  action : String
  drift : Option DriftInfo := none
  deriving Repr, DecidableEq

/-- Outcomes of the gateway and store calls the loop awaits; an `Except`
error models a thrown/rejected promise. -/
structure CheckEnv where
  setHome : String → String → Except String Unit
  setMax : String → String → Int → Except String Unit
  getMeasure : String → String → Int → Int → Except String RoomMeasureResponse
  logE : String → String → String → ℚ → ℚ → Except String Unit

/-- Constant `MIN_MINUTES_SINCE_DROP` (src/index.ts line 6). -/
def MIN_MINUTES_SINCE_DROP : ℚ := 10

/-- Constant `MIN_TEMP_RISE` (src/index.ts line 7). -/
def MIN_TEMP_RISE : ℚ := 1/2

/-- The body of the `for (const thermostat of thermostats)` loop of the
`/check` handler (src/index.ts 64-181) for one unit, returning the pushed
result entry and the trace of awaited external actions.  The TS non-null
assertions `drift.tempAtDrop!` etc. are modelled with `Option.getD 0`. -/
def processThermostat (env : CheckEnv) (t : ThermostatInfo) :
    Except String (UnitResult × List Action) :=
  if t.reachable = false then
    .ok ({ home := t.homeName, room := t.roomName, currentTemp := t.currentTemp,
           setpoint := t.setpoint, action := "skipped_unreachable" }, [])
  else if t.mode = "max" then
    match env.setHome t.homeId t.roomId with
    | .error e => .error e
    | .ok _ =>
      match env.logE "reset_completed" t.homeId t.roomId t.currentTemp t.setpoint with
      | .error e => .error e
      | .ok _ =>
        .ok ({ home := t.homeName, room := t.roomName, currentTemp := t.currentTemp,
               setpoint := t.setpoint, action := "failsafe_reset" },
             [Action.setHome t.homeId t.roomId,
              Action.logEvent "reset_completed" t.homeId t.roomId t.currentTemp t.setpoint])
  else
    let dateBegin := t.serverTime - 30 * 60
    match env.getMeasure t.homeId t.roomId dateBegin t.serverTime with
    | .error e => .error e
    | .ok response =>
      let points := parseMeasureData response
      let drift := detectDrift points t.serverTime MIN_MINUTES_SINCE_DROP MIN_TEMP_RISE
      if drift.isDrifting then
        match env.logE "overage_detected" t.homeId t.roomId t.currentTemp t.setpoint with
        | .error e => .error e
        | .ok _ =>
          match env.setMax t.homeId t.roomId t.serverTime with
          | .error e => .error e
          | .ok _ =>
            match env.logE "reset_triggered" t.homeId t.roomId t.currentTemp t.setpoint with
            | .error e => .error e
            | .ok _ =>
              .ok ({ home := t.homeName, room := t.roomName,
                     currentTemp := t.currentTemp, setpoint := t.setpoint,
                     action := "drift_reset_triggered",
                     drift := some { tempAtDrop := drift.tempAtDrop.getD 0,
                                     tempRise := drift.tempRise.getD 0,
                                     minutesSinceDrop := drift.minutesSinceDrop.getD 0 } },
                   [Action.getMeasure t.homeId t.roomId dateBegin t.serverTime,
                    Action.logEvent "overage_detected" t.homeId t.roomId t.currentTemp t.setpoint,
                    Action.setMax t.homeId t.roomId (some t.serverTime),
                    Action.logEvent "reset_triggered" t.homeId t.roomId t.currentTemp t.setpoint])
      else
        .ok ({ home := t.homeName, room := t.roomName, currentTemp := t.currentTemp,
               setpoint := t.setpoint, action := "none" },
             [Action.getMeasure t.homeId t.roomId dateBegin t.serverTime])

/-- Sequential evaluation of all discovered units: the first thrown error
escapes the loop (there is no per-unit catch in the source handler). -/
def runChecks (env : CheckEnv) : List ThermostatInfo →
    Except String (List UnitResult × List Action)
  | [] => .ok ([], [])
  | t :: ts =>
    match processThermostat env t with
    | .error e => .error e
    | .ok (r, tr) =>
      match runChecks env ts with
      | .error e => .error e
      | .ok (rs, trs) => .ok (r :: rs, tr ++ trs)

/-- The JSON responses the `/check` handler can produce past
authentication: the empty-discovery answer, the aggregated summary, or the
500 produced by the surrounding `catch`. -/
inductive CheckResponse where
  | empty
  | summary (status : String) (checked : Nat) (drifts : Nat) (results : List UnitResult)
  | serverError (details : String)
  deriving Repr, DecidableEq

/-- The `/check` handler body (src/index.ts 32-202) given the discovered
thermostats: any error thrown while evaluating a unit reaches the outer
`catch` and becomes the 500 response. -/
def checkHandler (env : CheckEnv) (thermostats : List ThermostatInfo) : CheckResponse :=
  if thermostats.length = 0 then .empty
  else
    match runChecks env thermostats with
    | .error e => .serverError e
    | .ok (results, _) =>
      let driftCount := results.countP fun r => r.action = "drift_reset_triggered"
      .summary (if 0 < driftCount then "drifts_detected" else "ok")
        thermostats.length driftCount results

/-! ## Event log (src/lib/redis.ts, `EventLogger`) -/

/-- A persisted audit record (src/types.ts `OverageEvent`).  The Redis
member is its JSON serialization; since that serialization is injective on
these records, the store is modelled with the record itself as member. -/
structure OverageEvent where
  etype : String
  homeId : String
  roomId : String
  currentTemp : ℚ
  setpoint : ℚ
  diff : ℚ
  timestamp : Int
  deriving Repr, DecidableEq

/-- The argument of `logEvent`: an `OverageEvent` minus its timestamp. -/
structure EventInput where
  etype : String
  homeId : String
  roomId : String
  currentTemp : ℚ
  setpoint : ℚ
  diff : ℚ
  deriving Repr, DecidableEq

/-- Completing an event with the insertion timestamp (`Date.now()`). -/
def mkFullEvent (e : EventInput) (timestamp : Int) : OverageEvent :=
  { etype := e.etype, homeId := e.homeId, roomId := e.roomId,
    currentTemp := e.currentTemp, setpoint := e.setpoint, diff := e.diff,
    timestamp := timestamp }

/-- Constant `MAX_EVENTS_TO_KEEP` (src/lib/redis.ts line 5). -/
def MAX_EVENTS_TO_KEEP : Nat := 1000

/-- A Redis sorted set: score/member pairs kept ascending by score. -/
abbrev EventStore := List (Int × OverageEvent)

/-- Score-ordered insertion; an entry with a score equal to existing ones
goes after them, as Redis ranks it relative to the later trim. -/
def insertByScore (score : Int) (member : OverageEvent) : EventStore → EventStore
  | [] => [(score, member)]
  | (s0, m0) :: rest =>
      if score < s0 then (score, member) :: (s0, m0) :: rest
      else (s0, m0) :: insertByScore score member rest

/-- Redis `ZADD`: add the member with the given score, updating the score of an
already-present member. -/
def zadd (store : EventStore) (score : Int) (member : OverageEvent) : EventStore :=
  insertByScore score member (store.filter fun x => x.2 ≠ member)

/-- Source method `EventLogger.logEvent` (src/lib/redis.ts 18-43) with the retention
bound as a parameter: insert at the timestamp score, then, if the total
count exceeds the bound, remove the oldest excess ranks
(`ZREMRANGEBYRANK key 0 (count - maxKeep - 1)`). -/
def logEventBounded (maxKeep : Nat) (store : EventStore) (timestamp : Int)
    (e : EventInput) : EventStore :=
  let added := zadd store timestamp (mkFullEvent e timestamp)
  let count := added.length
  if maxKeep < count then added.drop (count - maxKeep) else added

/-- Source method `EventLogger.logEvent` at the source bound of 1000. -/
def logEvent (store : EventStore) (timestamp : Int) (e : EventInput) : EventStore :=
  logEventBounded MAX_EVENTS_TO_KEEP store timestamp e

/-- A whole sequence of `logEvent` insertions, oldest first. -/
def logEvents (store : EventStore) (inputs : List (Int × EventInput)) : EventStore :=
  inputs.foldl (fun st p => logEvent st p.1 p.2) store

/-! ## Credential cache (src/lib/netatmo.ts 36-73) -/

/-- Constant `ACCESS_TOKEN_TTL` (src/lib/netatmo.ts line 16): cache for 10000 s,
strictly under the 3-hour (10800 s) real-world token lifetime. -/
def ACCESS_TOKEN_TTL : Nat := 10000

/-- Constructor configuration holding the bootstrap refresh token. -/
structure NetatmoConfig where
  clientId : String
  clientSecret : String
  refreshToken : String
  deriving Repr, DecidableEq

/-- Vendor OAuth answer (src/types.ts `NetatmoTokenResponse`). -/
structure NetatmoTokenResponse where
  access_token : String
  refresh_token : String
  expires_in : Nat
  deriving Repr, DecidableEq

/-- The two token keys of the shared store; the access token is remembered
together with the TTL it was stored under. -/
structure TokenStore where
  accessToken : Option (String × Nat)
  refreshToken : Option String
  deriving Repr, DecidableEq

/-- JS truthiness of a nullable string: `null`/`undefined` and `""` are
falsy. -/
def truthy : Option String → Option String
  | some s => if s = "" then none else some s
  | none => none

/-- Source method `NetatmoClient.getRefreshToken` (src/lib/netatmo.ts 36-44): prefer the
possibly-rotated token of the store, fall back to the configured bootstrap one. -/
def getRefreshToken (st : TokenStore) (config : NetatmoConfig) : String :=
  (truthy st.refreshToken).getD config.refreshToken

/-- Source method `NetatmoClient.getAccessToken` (src/lib/netatmo.ts 49-73) together with
the inlined `refreshAccessToken`: `oauthExchange` models the OAuth POST as
a function of the refresh token placed in the request. -/
def getAccessToken (st : TokenStore) (config : NetatmoConfig)
    (oauthExchange : String → Except String NetatmoTokenResponse) :
    Except String (String × TokenStore) :=
  match truthy (st.accessToken.map Prod.fst) with
  | some tok => .ok (tok, st)
  | none =>
    match oauthExchange (getRefreshToken st config) with
    | .error e => .error e
    | .ok resp =>
      let st1 : TokenStore := { st with accessToken := some (resp.access_token, ACCESS_TOKEN_TTL) }
      let st2 : TokenStore :=
        if resp.refresh_token ≠ "" then { st1 with refreshToken := some resp.refresh_token }
        else st1
      .ok (resp.access_token, st2)

/-! ## Reset handler (src/api/reset.ts, the `/reset` POST handler) -/

/-- A room as read back from `/homestatus`; the measured temperature is
optional to model its absence from the raw JSON (which the source guards
with `?? 0`). -/
structure NetatmoRoomStatus where
  id : String
  therm_measured_temperature : Option ℚ
  deriving Repr, DecidableEq

/-- The part of a `/homestatus` response body the reset handler reads. -/
structure HomeStatusBody where
  rooms : List NetatmoRoomStatus
  deriving Repr, DecidableEq

/-- Source method `NetatmoClient.getRoomFromStatus` (src/lib/netatmo.ts 177-182). -/
def getRoomFromStatus (homeStatus : HomeStatusBody) (roomId : String) :
    Option NetatmoRoomStatus :=
  homeStatus.rooms.find? fun room => room.id = roomId

/-- A parsed callback body: the handle fields may be absent. -/
structure ParsedResetPayload where
  homeId : Option String
  roomId : Option String
  originalSetpoint : ℚ
  homeName : Option String
  roomName : Option String
  deriving Repr, DecidableEq

/-- JS falsiness of a destructured string field (`!homeId`). -/
def falsy : Option String → Bool
  | none => true
  | some s => s = ""

/-- Outcomes of the calls the reset handler awaits. -/
structure ResetEnv where
  verifySignature : String → String → Bool
  homeStatus : String → Except String HomeStatusBody
  setHome : String → String → Except String Unit
  logE : String → String → String → ℚ → ℚ → Except String Unit

/-- The JSON responses of the `/reset` handler. -/
inductive ResetResponse where
  | unauthorized
  | invalidPayload
  | completed (homeId roomId : String) (currentTemp originalSetpoint : ℚ)
  | serverError (details : String)
  deriving Repr, DecidableEq

/-- The `/reset` POST handler (src/api/reset.ts): verify the QStash
signature over the raw body, validate the handle fields, re-read the home
status, command home mode, log `reset_completed`, answer with a completion
summary.  `parsed` is the `JSON.parse` result of the raw body (`none`
models a parse throw reaching the outer catch). -/
def resetHandler (env : ResetEnv) (signatureHeader : Option String) (rawBody : String)
    (parsed : Option ParsedResetPayload) : ResetResponse × List Action :=
  match signatureHeader with
  | none => (.unauthorized, [])
  | some sig =>
    if env.verifySignature sig rawBody = false then (.unauthorized, [])
    else
      match parsed with
      | none => (.serverError "invalid json", [])
      | some p =>
        if falsy p.homeId || falsy p.roomId then (.invalidPayload, [])
        else
          let homeId := p.homeId.getD ""
          let roomId := p.roomId.getD ""
          match env.homeStatus homeId with
          | .error e => (.serverError e, [Action.getStatus homeId])
          | .ok status =>
            let room := getRoomFromStatus status roomId
            let currentTemp := (room.bind fun r => r.therm_measured_temperature).getD 0
            match env.setHome homeId roomId with
            | .error e => (.serverError e, [Action.getStatus homeId, Action.setHome homeId roomId])
            | .ok _ =>
              match env.logE "reset_completed" homeId roomId currentTemp p.originalSetpoint with
              | .error e =>
                  (.serverError e,
                   [Action.getStatus homeId, Action.setHome homeId roomId])
              | .ok _ =>
                  (.completed homeId roomId currentTemp p.originalSetpoint,
                   [Action.getStatus homeId, Action.setHome homeId roomId,
                    Action.logEvent "reset_completed" homeId roomId currentTemp p.originalSetpoint])

/-! ## Concrete fixtures used by witnesses and counterexamples -/

/-- An environment where every awaited call succeeds and the measurement
read returns the given response. -/
def allOkEnv (resp : RoomMeasureResponse) : CheckEnv :=
  { setHome := fun _ _ => .ok ()
    setMax := fun _ _ _ => .ok ()
    getMeasure := fun _ _ _ _ => .ok resp
    logE := fun _ _ _ _ _ => .ok () }

/-- An environment whose measurement read rejects with "boom". -/
def measureFailEnv : CheckEnv :=
  { setHome := fun _ _ => .ok ()
    setMax := fun _ _ _ => .ok ()
    getMeasure := fun _ _ _ _ => .error "boom"
    logE := fun _ _ _ _ _ => .ok () }

/-- A measurement response realising the §8 drifting scenario: one bucket
starting at 8200 with a 900 s step, samples (20, 21), (20.5, 19), (22, 19). -/
def respDrift : RoomMeasureResponse := ⟨[⟨8200, 900, [(20, 21), (20.5, 19), (22, 19)]⟩]⟩

/-- A reachable unit in schedule mode. -/
def tLiving : ThermostatInfo :=
  ⟨"h1", "Home", "r1", "Living Room", 22, 19, "schedule", true, 10000⟩

/-- A second reachable unit in schedule mode. -/
def tKitchen : ThermostatInfo :=
  ⟨"h1", "Home", "r2", "Kitchen", 21, 21, "schedule", true, 10000⟩

/-- A reachable unit discovered stuck in max mode. -/
def tMaxStuck : ThermostatInfo :=
  ⟨"h1", "Home", "r3", "Office", 24, 19, "max", true, 10000⟩

/-- An UNREACHABLE unit whose snapshot shows max mode. -/
def tMaxUnreachable : ThermostatInfo :=
  ⟨"h1", "Home", "r4", "Attic", 24, 19, "max", false, 10000⟩

/-- A third reachable unit in schedule mode, for witness fixtures. -/
def tLounge : ThermostatInfo :=
  ⟨"h2", "Cottage", "r9", "Lounge", 22, 19, "schedule", true, 10000⟩

/-- Whether a `/check` response is the aggregated per-unit summary. -/
def isSummary : CheckResponse → Bool
  | .summary _ _ _ _ => true
  | _ => false


/-! ## Event-log windows and further fixtures -/

/-- Repeated `logEvent` insertions folded over an input sequence, with the retention
bound as a parameter. -/
def logEventsBounded (maxKeep : Nat) (store : EventStore)
    (inputs : List (Int × EventInput)) : EventStore :=
  inputs.foldl (fun st p => logEventBounded maxKeep st p.1 p.2) store

/-- The score/member entries a sequence of insertions creates. -/
def entriesOf (inputs : List (Int × EventInput)) : EventStore :=
  inputs.map fun p => (p.1, mkFullEvent p.2 p.1)

/-- The retention window: the entries of the most recent `maxKeep` inputs. -/
def windowOf (maxKeep : Nat) (inputs : List (Int × EventInput)) : EventStore :=
  (entriesOf inputs).drop (inputs.length - maxKeep)

/-- A concrete event argument, as built by `logOverageDetected`. -/
def eOverage : EventInput := ⟨"overage_detected", "h1", "r1", 22, 19, 3⟩

/-- A concrete event argument, as built by `logResetTriggered`. -/
def eTriggered : EventInput := ⟨"reset_triggered", "h1", "r1", 22, 19, 3⟩

/-- A concrete event argument, as built by `logResetCompleted`. -/
def eCompleted : EventInput := ⟨"reset_completed", "h1", "r1", 21, 19, 2⟩

/-- A reset environment whose signature check accepts exactly "good-sig"
over the body "raw-body", knows one home with one room "r1" at 21.5 °C, and
whose remaining calls succeed. -/
def resetEnvOk : ResetEnv :=
  { verifySignature := fun sig body => sig = "good-sig" && body = "raw-body"
    homeStatus := fun _ => .ok ⟨[⟨"r1", some 21.5⟩]⟩
    setHome := fun _ _ => .ok ()
    logE := fun _ _ _ _ _ => .ok () }

/-- A reset environment like `resetEnvOk` whose home status knows only a
room "other" with no measured temperature relevant to "r1". -/
def resetEnvNoRoom : ResetEnv :=
  { verifySignature := fun sig body => sig = "good-sig" && body = "raw-body"
    homeStatus := fun _ => .ok ⟨[⟨"other", some 18⟩]⟩
    setHome := fun _ _ => .ok ()
    logE := fun _ _ _ _ _ => .ok () }

/-- A parsed callback payload with both handle fields present. -/
def pFull : ParsedResetPayload :=
  ⟨some "h1", some "r1", 19, some "Home", some "Living Room"⟩

/-- A parsed callback payload missing its `roomId`. -/
def pNoRoom : ParsedResetPayload := ⟨some "h1", none, 19, none, none⟩

/-- A bootstrap configuration for the credential cache. -/
def cfgBoot : NetatmoConfig := ⟨"client-id", "client-secret", "boot-refresh"⟩

/-- A token store holding no access token and a rotated refresh token. -/
def storeRotated : TokenStore := ⟨none, some "rotated-refresh"⟩

/-- A vendor OAuth endpoint that accepts exactly the rotated refresh token
and answers with a fresh pair and a 3-hour expiry. -/
def oauthRotating : String → Except String NetatmoTokenResponse := fun r =>
  if r = "rotated-refresh" then
    .ok ⟨"fresh-access", "next-refresh", 10800⟩
  else .error "invalid_grant"

/-! ## Drift-detector lemmas and claims C3, C4 -/

/-- The backward scan skips every adjacent pair without a setpoint drop and
evaluates the first (most recent) pair that has one. -/
theorem scanDrop_skip (cur : MeasurePoint) (st : Int) (ms mr : ℚ)
    (c p : MeasurePoint) (hdrop : c.setpoint < p.setpoint) (tl : List MeasurePoint) :
    ∀ L : List MeasurePoint,
      List.Chain' (fun a b => ¬ a.setpoint < b.setpoint) (L ++ [c]) →
      scanDrop cur st ms mr (L ++ c :: p :: tl) = evalDrop cur c st ms mr := by
  intro L
  induction L with
  | nil =>
    intro _
    simp [scanDrop, hdrop]
  | cons a L ih =>
    intro hchain
    rw [List.cons_append] at hchain
    cases L with
    | nil =>
      rw [List.nil_append] at hchain
      have ha : ¬ a.setpoint < c.setpoint := (List.chain'_cons.mp hchain).1
      simp [scanDrop, ha, hdrop]
    | cons b L2 =>
      rw [List.cons_append] at hchain
      have hsplit := List.chain'_cons.mp hchain
      have h1 : ¬ a.setpoint < b.setpoint := hsplit.1
      have h2 : List.Chain' (fun x y => ¬ x.setpoint < y.setpoint) ((b :: L2) ++ [c]) := by
        rw [List.cons_append]
        exact hsplit.2
      simp only [List.cons_append, scanDrop]
      rw [if_neg h1]
      exact ih h2

/-- Claim C4: when the most recent setpoint drop of the series happened
less than `minMinutesSinceDrop` before the server time, `detectDrift`
reports not drifting, with no hypothesis on how much the temperature has
risen and none on the (possibly drop-containing) earlier prefix `pre` —
earlier unresolved drops never influence the result. -/
theorem detectDrift_recent_drop_not_drifting
    (pre post : List MeasurePoint) (p c cur : MeasurePoint)
    (st : Int) (mm mr : ℚ) (points : List MeasurePoint)
    (hpts : points = pre ++ p :: c :: post)
    (hlast : points.getLast? = some cur)
    (hdrop : c.setpoint < p.setpoint)
    (hrecent : List.Chain' (fun a b => ¬ b.setpoint < a.setpoint) (c :: post))
    (hsoon : ((st - c.timestamp : Int) : ℚ) < mm * 60) :
    detectDrift points st mm mr = noDrift := by
  subst hpts
  have hlen : ¬ (pre ++ p :: c :: post).length < 2 := by
    simp only [List.length_append, List.length_cons]
    omega
  unfold detectDrift
  rw [if_neg hlen, hlast]
  show scanDrop cur st (mm * 60) mr (pre ++ p :: c :: post).reverse = noDrift
  have hrev : (pre ++ p :: c :: post).reverse = post.reverse ++ c :: p :: pre.reverse := by
    simp
  rw [hrev]
  have hchain : List.Chain' (fun a b => ¬ a.setpoint < b.setpoint) (post.reverse ++ [c]) := by
    have hrw : post.reverse ++ [c] = (c :: post).reverse := by simp
    rw [hrw, List.chain'_reverse]
    exact hrecent
  rw [scanDrop_skip cur st (mm * 60) mr c p hdrop pre.reverse post.reverse hchain]
  unfold evalDrop
  rw [if_neg (not_le.mpr hsoon)]

/-- Claim C4 witness: the §8 five-minute scenario — setpoint dropped
21→19 only 300 s before server time, temperature rose 1.5 °C, detector
stays quiet. -/
theorem detectDrift_recent_drop_not_drifting_witness :
    detectDrift [⟨8200, 20, 21⟩, ⟨9700, 20.5, 19⟩, ⟨10000, 22, 19⟩] 10000 10 (1/2) =
      noDrift :=
  detectDrift_recent_drop_not_drifting
    [] [⟨10000, 22, 19⟩] ⟨8200, 20, 21⟩ ⟨9700, 20.5, 19⟩ ⟨10000, 22, 19⟩
    10000 10 (1/2) _ rfl rfl (by norm_num)
    (by norm_num [List.chain'_pair]) (by norm_num)

/-- Claim C3 (amended): when the MOST RECENT setpoint drop of the series
satisfies both thresholds, `detectDrift` reports drifting with `tempRise`
exactly the temperature of the last point minus the temperature at the drop
point, together with the drop time, temperature at drop, current
temperature and the elapsed minutes rounded to the nearest integer. -/
theorem detectDrift_most_recent_drop_drifting
    (pre post : List MeasurePoint) (p c cur : MeasurePoint)
    (st : Int) (mm mr : ℚ) (points : List MeasurePoint)
    (hpts : points = pre ++ p :: c :: post)
    (hlast : points.getLast? = some cur)
    (hdrop : c.setpoint < p.setpoint)
    (hrecent : List.Chain' (fun a b => ¬ b.setpoint < a.setpoint) (c :: post))
    (helapsed : mm * 60 ≤ ((st - c.timestamp : Int) : ℚ))
    (hrise : mr ≤ cur.temperature - c.temperature) :
    detectDrift points st mm mr =
      { isDrifting := true
        setpointDropTime := some c.timestamp
        tempAtDrop := some c.temperature
        currentTemp := some cur.temperature
        tempRise := some (cur.temperature - c.temperature)
        minutesSinceDrop := some (jsRound (((st - c.timestamp : Int) : ℚ) / 60)) } := by
  subst hpts
  have hlen : ¬ (pre ++ p :: c :: post).length < 2 := by
    simp only [List.length_append, List.length_cons]
    omega
  unfold detectDrift
  rw [if_neg hlen, hlast]
  show scanDrop cur st (mm * 60) mr (pre ++ p :: c :: post).reverse = _
  have hrev : (pre ++ p :: c :: post).reverse = post.reverse ++ c :: p :: pre.reverse := by
    simp
  rw [hrev]
  have hchain : List.Chain' (fun a b => ¬ a.setpoint < b.setpoint) (post.reverse ++ [c]) := by
    have hrw : post.reverse ++ [c] = (c :: post).reverse := by simp
    rw [hrw, List.chain'_reverse]
    exact hrecent
  rw [scanDrop_skip cur st (mm * 60) mr c p hdrop pre.reverse post.reverse hchain]
  unfold evalDrop
  rw [if_pos helapsed, if_pos hrise]

/-- Claim C3 witness: the §8 scenario — drop 21→19 at 900 s before server
time, temperature 20.5 °C at the drop and 22.0 °C now — yields
`isDrifting = true`, `tempRise = 1.5`, `minutesSinceDrop = 15`. -/
theorem detectDrift_most_recent_drop_drifting_witness :
    detectDrift [⟨8200, 20, 21⟩, ⟨9100, 20.5, 19⟩, ⟨10000, 22, 19⟩] 10000 10 (1/2) =
      { isDrifting := true
        setpointDropTime := some 9100
        tempAtDrop := some 20.5
        currentTemp := some 22
        tempRise := some 1.5
        minutesSinceDrop := some 15 } := by
  have h := detectDrift_most_recent_drop_drifting
    [] [⟨10000, 22, 19⟩] ⟨8200, 20, 21⟩ ⟨9100, 20.5, 19⟩ ⟨10000, 22, 19⟩
    10000 10 (1/2) _ rfl rfl (by norm_num)
    (by norm_num [List.chain'_pair]) (by norm_num) (by norm_num)
  refine h.trans ?_
  norm_num [jsRound]

/-- Claim C3 counterexample: this series CONTAINS a setpoint drop (21→19 at
time 9100, i.e. 900 s ≥ 10 min before server time 10000, with the
temperature rising from 20.5 °C to 22.5 °C ≥ 0.5 °C since), yet
`detectDrift` reports not drifting, because the only drop it evaluates is
the more recent one at time 9900 (100 s ago).  The quantification of the claim
over every contained drop is therefore false. -/
theorem detectDrift_contained_drop_cex :
    detectDrift
      [⟨8200, 20, 21⟩, ⟨9100, 20.5, 19⟩, ⟨9900, 22, 18⟩, ⟨10000, 22.5, 18⟩]
      10000 10 (1/2) = noDrift
    ∧ ((19 : ℚ) < 21 ∧ (10 : ℚ) * 60 ≤ ((10000 - 9100 : Int) : ℚ)
        ∧ (1/2 : ℚ) ≤ (22.5 : ℚ) - 20.5) := by
  refine ⟨?_, ?_, ?_, ?_⟩
  all_goals norm_num [detectDrift, scanDrop, evalDrop, noDrift, jsRound]

/-- Claim C1 counterexample: with two reachable units and a gateway whose
measurement read rejects, the whole cycle aborts — the handler answers the
catch-all 500 (`Failed to check temperature`) carrying the error detail,
and no per-unit results are aggregated for either unit. -/
theorem checkCycle_unit_error_aborts_cex :
    checkHandler measureFailEnv [tLiving, tKitchen] = .serverError "boom"
    ∧ isSummary (checkHandler measureFailEnv [tLiving, tKitchen]) = false := by
  constructor <;> rfl

/-- Claim C1 (amended): a gateway error raised while evaluating one unit
ABORTS the evaluation of the remaining units: whatever the rest of the
discovery list holds, the handler returns the overall 500 error response
instead of per-unit results. -/
theorem checkCycle_unit_error_aborts (env : CheckEnv) (t : ThermostatInfo)
    (ts : List ThermostatInfo) (e : String)
    (h : processThermostat env t = .error e) :
    checkHandler env (t :: ts) = .serverError e := by
  have hrun : runChecks env (t :: ts) = .error e := by
    unfold runChecks
    rw [h]
  unfold checkHandler
  rw [if_neg (by simp), hrun]

/-- Claim C1 witness: the abort theorem applied to the failing environment
with a singleton discovery list. -/
theorem checkCycle_unit_error_aborts_witness :
    checkHandler measureFailEnv [tLiving] = .serverError "boom" :=
  checkCycle_unit_error_aborts measureFailEnv tLiving [] "boom" rfl

/-- Claim C2 counterexample: a reachable unit in schedule mode whose
measurement window is judged drifting.  The loop logs `overage_detected`,
commands max mode with the failsafe expiry, logs `reset_triggered` and
records "drift_reset_triggered" with drift diagnostics — but the trace
contains NO delayed-callback scheduling action and no `ResetPayload` is
ever built, contradicting the fourth step of the claim. -/
theorem driftBranch_no_schedule_cex :
    processThermostat (allOkEnv respDrift) tLiving =
      .ok ({ home := "Home", room := "Living Room", currentTemp := 22, setpoint := 19,
             action := "drift_reset_triggered",
             drift := some { tempAtDrop := 20.5, tempRise := 1.5, minutesSinceDrop := 15 } },
           [Action.getMeasure "h1" "r1" 8200 10000,
            Action.logEvent "overage_detected" "h1" "r1" 22 19,
            Action.setMax "h1" "r1" (some 10000),
            Action.logEvent "reset_triggered" "h1" "r1" 22 19])
    ∧ hasScheduleReset
        [Action.getMeasure "h1" "r1" 8200 10000,
         Action.logEvent "overage_detected" "h1" "r1" 22 19,
         Action.setMax "h1" "r1" (some 10000),
         Action.logEvent "reset_triggered" "h1" "r1" 22 19] = false := by
  refine ⟨?_, rfl⟩
  have hd : detectDrift (parseMeasureData respDrift) 10000 MIN_MINUTES_SINCE_DROP MIN_TEMP_RISE
      = { isDrifting := true, setpointDropTime := some 9100, tempAtDrop := some 20.5,
          currentTemp := some 22, tempRise := some 1.5, minutesSinceDrop := some 15 } := by
    norm_num [detectDrift, scanDrop, evalDrop, parseMeasureData, respDrift,
      insertPointSorted, MIN_MINUTES_SINCE_DROP, MIN_TEMP_RISE, jsRound, List.enum,
      List.enumFrom, noDrift]
  simp [processThermostat, allOkEnv, tLiving, hd]

/-- Claim C2 (amended): for every reachable unit not in max mode whose
measurement window the detector judges drifting, and whose awaited calls
succeed, the loop performs in order: log `overage_detected`, command max
mode (passing the server time from which the failsafe expiry is derived),
log `reset_triggered`, and record "drift_reset_triggered" with the drift
diagnostics; it schedules NO delayed callback. -/
theorem driftBranch_actions (env : CheckEnv) (t : ThermostatInfo) (resp : RoomMeasureResponse)
    (hreach : t.reachable = true)
    (hmode : ¬ t.mode = "max")
    (hmeas : env.getMeasure t.homeId t.roomId (t.serverTime - 30 * 60) t.serverTime = .ok resp)
    (hlog1 : env.logE "overage_detected" t.homeId t.roomId t.currentTemp t.setpoint = .ok ())
    (hmax : env.setMax t.homeId t.roomId t.serverTime = .ok ())
    (hlog2 : env.logE "reset_triggered" t.homeId t.roomId t.currentTemp t.setpoint = .ok ())
    (hdrift : (detectDrift (parseMeasureData resp) t.serverTime
        MIN_MINUTES_SINCE_DROP MIN_TEMP_RISE).isDrifting = true) :
    processThermostat env t =
      .ok ({ home := t.homeName, room := t.roomName, currentTemp := t.currentTemp,
             setpoint := t.setpoint, action := "drift_reset_triggered",
             drift := some
               { tempAtDrop := (detectDrift (parseMeasureData resp) t.serverTime
                   MIN_MINUTES_SINCE_DROP MIN_TEMP_RISE).tempAtDrop.getD 0
                 tempRise := (detectDrift (parseMeasureData resp) t.serverTime
                   MIN_MINUTES_SINCE_DROP MIN_TEMP_RISE).tempRise.getD 0
                 minutesSinceDrop := (detectDrift (parseMeasureData resp) t.serverTime
                   MIN_MINUTES_SINCE_DROP MIN_TEMP_RISE).minutesSinceDrop.getD 0 } },
           [Action.getMeasure t.homeId t.roomId (t.serverTime - 30 * 60) t.serverTime,
            Action.logEvent "overage_detected" t.homeId t.roomId t.currentTemp t.setpoint,
            Action.setMax t.homeId t.roomId (some t.serverTime),
            Action.logEvent "reset_triggered" t.homeId t.roomId t.currentTemp t.setpoint])
    ∧ hasScheduleReset
        [Action.getMeasure t.homeId t.roomId (t.serverTime - 30 * 60) t.serverTime,
         Action.logEvent "overage_detected" t.homeId t.roomId t.currentTemp t.setpoint,
         Action.setMax t.homeId t.roomId (some t.serverTime),
         Action.logEvent "reset_triggered" t.homeId t.roomId t.currentTemp t.setpoint] = false := by
  refine ⟨?_, rfl⟩
  simp only [processThermostat, hreach, hmode, hmeas, hlog1, hmax, hlog2, hdrift,
    Bool.true_eq_false, if_false, if_neg hmode, if_true]

/-- Claim C2 witness: the drift-branch theorem applied to the all-ok
environment, the §8 drifting measurement response and a concrete unit. -/
theorem driftBranch_actions_witness :
    processThermostat (allOkEnv respDrift) tLounge =
      .ok ({ home := "Cottage", room := "Lounge", currentTemp := 22, setpoint := 19,
             action := "drift_reset_triggered",
             drift := some { tempAtDrop := 20.5, tempRise := 1.5, minutesSinceDrop := 15 } },
           [Action.getMeasure "h2" "r9" 8200 10000,
            Action.logEvent "overage_detected" "h2" "r9" 22 19,
            Action.setMax "h2" "r9" (some 10000),
            Action.logEvent "reset_triggered" "h2" "r9" 22 19]) := by
  have h := driftBranch_actions (allOkEnv respDrift) tLounge respDrift
    rfl (by simp [tLounge]) rfl rfl rfl rfl
    (by norm_num [detectDrift, scanDrop, evalDrop, parseMeasureData, respDrift,
      insertPointSorted, tLounge, MIN_MINUTES_SINCE_DROP, MIN_TEMP_RISE, List.enum, noDrift])
  refine h.1.trans ?_
  norm_num [detectDrift, scanDrop, evalDrop, parseMeasureData, respDrift,
    insertPointSorted, tLounge, MIN_MINUTES_SINCE_DROP, MIN_TEMP_RISE, List.enum,
    noDrift, jsRound]

/-- Claim C5 counterexample: a unit whose discovery snapshot shows
`mode = max` but which is unreachable is skipped by the earlier
reachability branch: no home command is issued, no `reset_completed` is
logged, and the recorded action is "skipped_unreachable" — contradicting
the quantification of the claim over every max-mode snapshot. -/
theorem failsafe_unreachable_max_cex :
    tMaxUnreachable.mode = "max"
    ∧ processThermostat (allOkEnv respDrift) tMaxUnreachable =
        .ok ({ home := "Home", room := "Attic", currentTemp := 24, setpoint := 19,
               action := "skipped_unreachable" }, []) := by
  constructor <;> rfl

/-- Claim C5 (amended): for every REACHABLE unit whose snapshot shows
`mode = max` (and whose awaited calls succeed), the loop immediately
commands home mode, logs `reset_completed` and records "failsafe_reset",
with no measurement fetch (hence no drift evaluation) in its trace; and the
single per-cycle result of the unit carries the action "failsafe_reset", so the
failsafe branch excludes the "drift_reset_triggered" branch for that unit
in that cycle. -/
theorem failsafeBranch_reachable_max (env : CheckEnv) (t : ThermostatInfo)
    (hreach : t.reachable = true) (hmode : t.mode = "max")
    (hhome : env.setHome t.homeId t.roomId = .ok ())
    (hlog : env.logE "reset_completed" t.homeId t.roomId t.currentTemp t.setpoint = .ok ()) :
    processThermostat env t =
      .ok ({ home := t.homeName, room := t.roomName, currentTemp := t.currentTemp,
             setpoint := t.setpoint, action := "failsafe_reset" },
           [Action.setHome t.homeId t.roomId,
            Action.logEvent "reset_completed" t.homeId t.roomId t.currentTemp t.setpoint])
    ∧ hasGetMeasure
        [Action.setHome t.homeId t.roomId,
         Action.logEvent "reset_completed" t.homeId t.roomId t.currentTemp t.setpoint] = false
    ∧ (∀ r tr, processThermostat env t = .ok (r, tr) → r.action = "failsafe_reset") := by
  have hmain : processThermostat env t =
      .ok ({ home := t.homeName, room := t.roomName, currentTemp := t.currentTemp,
             setpoint := t.setpoint, action := "failsafe_reset" },
           [Action.setHome t.homeId t.roomId,
            Action.logEvent "reset_completed" t.homeId t.roomId t.currentTemp t.setpoint]) := by
    simp [processThermostat, hreach, hmode, hhome, hlog]
  refine ⟨hmain, rfl, ?_⟩
  intro r tr h
  rw [hmain] at h
  simp only [Except.ok.injEq, Prod.mk.injEq] at h
  rw [← h.1]

/-- Claim C5 witness: the failsafe theorem at a concrete reachable
max-mode unit. -/
theorem failsafeBranch_reachable_max_witness :
    processThermostat (allOkEnv respDrift) tMaxStuck =
      .ok ({ home := "Home", room := "Office", currentTemp := 24, setpoint := 19,
             action := "failsafe_reset" },
           [Action.setHome "h1" "r3",
            Action.logEvent "reset_completed" "h1" "r3" 24 19]) := by
  have h := failsafeBranch_reachable_max (allOkEnv respDrift) tMaxStuck rfl rfl rfl rfl
  exact h.1


/-! ## Event-log retention lemmas and claim C6 -/

/-- Score-ordered insertion of a maximal score appends at the end. -/
theorem insertByScore_append (score : Int) (m : OverageEvent) :
    ∀ l : EventStore, (∀ x ∈ l, ¬ score < x.1) →
      insertByScore score m l = l ++ [(score, m)] := by
  intro l
  induction l with
  | nil => intro _; rfl
  | cons a rest ih =>
    intro h
    obtain ⟨s0, m0⟩ := a
    have ha : ¬ score < s0 := h (s0, m0) (List.mem_cons_self _ _)
    simp only [insertByScore, if_neg ha]
    rw [ih fun x hx => h x (List.mem_cons_of_mem _ hx)]
    simp

/-- Filtering out a member that is not in the store is the identity. -/
theorem filter_fresh (m : OverageEvent) (l : EventStore)
    (h : ∀ x ∈ l, x.2.timestamp ≠ m.timestamp) :
    (l.filter fun x => x.2 ≠ m) = l := by
  apply List.filter_eq_self.mpr
  intro x hx
  simp only [ne_eq, decide_not, Bool.not_eq_eq_eq_not, Bool.not_true, decide_eq_false_iff_not]
  intro heq
  exact h x hx (by rw [heq])

/-- Redis `ZADD` of an entry whose score is strictly above every stored score
appends it at the end. -/
theorem zadd_append (l : EventStore) (ts : Int) (e : EventInput)
    (hlt : ∀ x ∈ l, x.1 < ts) (hts : ∀ x ∈ l, x.2.timestamp = x.1) :
    zadd l ts (mkFullEvent e ts) = l ++ [(ts, mkFullEvent e ts)] := by
  unfold zadd
  rw [filter_fresh _ _ fun x hx => by
    rw [hts x hx]
    exact Int.ne_of_lt (hlt x hx)]
  exact insertByScore_append ts _ l fun x hx => not_lt.mpr (le_of_lt (hlt x hx))

/-- One `logEvent` step turns the retention window of the processed inputs
into the retention window extended by the new input. -/
theorem logEventBounded_window_step (maxKeep : Nat) (done : List (Int × EventInput))
    (ts : Int) (e : EventInput)
    (hlt : ∀ p ∈ done, p.1 < ts) :
    logEventBounded maxKeep (windowOf maxKeep done) ts e
      = windowOf maxKeep (done ++ [(ts, e)]) := by
  have hmem : ∀ x ∈ windowOf maxKeep done, x ∈ entriesOf done :=
    fun x hx => List.drop_subset _ _ hx
  have hscore : ∀ x ∈ windowOf maxKeep done, x.1 < ts := by
    intro x hx
    obtain ⟨p, hp, rfl⟩ := List.mem_map.mp (hmem x hx)
    exact hlt p hp
  have htsinv : ∀ x ∈ windowOf maxKeep done, x.2.timestamp = x.1 := by
    intro x hx
    obtain ⟨p, hp, rfl⟩ := List.mem_map.mp (hmem x hx)
    rfl
  have hEn : (entriesOf done).length = done.length := List.length_map _ _
  have hwin : (windowOf maxKeep done).length = done.length - (done.length - maxKeep) := by
    unfold windowOf
    rw [List.length_drop, hEn]
  have hEn2 : entriesOf (done ++ [(ts, e)]) = entriesOf done ++ [(ts, mkFullEvent e ts)] := by
    unfold entriesOf
    rw [List.map_append]
    rfl
  have happ : windowOf maxKeep done ++ [(ts, mkFullEvent e ts)]
      = (entriesOf done ++ [(ts, mkFullEvent e ts)]).drop (done.length - maxKeep) := by
    unfold windowOf
    rw [List.drop_append_of_le_length (by rw [hEn]; omega)]
  unfold logEventBounded
  rw [zadd_append _ _ _ hscore htsinv]
  simp only [List.length_append, List.length_cons, List.length_nil, hwin, Nat.zero_add]
  by_cases hcase : maxKeep ≤ done.length
  · rw [if_pos (by omega)]
    rw [happ, List.drop_drop]
    unfold windowOf
    rw [hEn2, List.length_append]
    simp only [List.length_cons, List.length_nil]
    congr 1
    omega
  · rw [if_neg (by omega)]
    rw [happ]
    unfold windowOf
    rw [hEn2, List.length_append]
    simp only [List.length_cons, List.length_nil]
    congr 1
    omega

/-- Folding further insertions over the current retention window yields the
retention window of the whole input sequence. -/
theorem logEventsBounded_window (maxKeep : Nat) (rest : List (Int × EventInput)) :
    ∀ done : List (Int × EventInput),
      (∀ p ∈ done, ∀ q ∈ rest, p.1 < q.1) →
      List.Pairwise (fun a b => a.1 < b.1) rest →
      logEventsBounded maxKeep (windowOf maxKeep done) rest
        = windowOf maxKeep (done ++ rest) := by
  induction rest with
  | nil =>
    intro done _ _
    simp [logEventsBounded]
  | cons hd tl ih =>
    intro done hcross hpw
    obtain ⟨ts, e⟩ := hd
    have hstep := logEventBounded_window_step maxKeep done ts e
      fun p hp => hcross p hp (ts, e) (List.mem_cons_self _ _)
    show logEventsBounded maxKeep
        (logEventBounded maxKeep (windowOf maxKeep done) ts e) tl = _
    rw [hstep]
    rw [ih (done ++ [(ts, e)]) ?_ (List.pairwise_cons.mp hpw).2]
    · simp
    · intro p hp q hq
      rcases List.mem_append.mp hp with h1 | h1
      · exact hcross p h1 q (List.mem_cons_of_mem _ hq)
      · have hpe : p = (ts, e) := by simpa using h1
        subst hpe
        exact (List.pairwise_cons.mp hpw).1 q hq

/-- Claim C6: Event Log retention.  For every sequence of `logEvent`
insertions with (strictly) increasing timestamps into the store bounded at
`MAX_EVENTS_TO_KEEP = 1000`, starting from an empty store: after each
insertion the store holds at most 1000 events; after all insertions the
store is exactly the entries of the inputs with the oldest
`length - 1000` dropped — i.e. the 1000 most recently inserted survive and
the oldest (lowest timestamp score) are trimmed on insert overflow — and
its size is `min length 1000`. -/
theorem eventLog_retention (inputs : List (Int × EventInput))
    (hpw : List.Pairwise (fun a b => a.1 < b.1) inputs) :
    (∀ k, (logEvents [] (inputs.take k)).length ≤ MAX_EVENTS_TO_KEEP)
    ∧ logEvents [] inputs
        = (entriesOf inputs).drop (inputs.length - MAX_EVENTS_TO_KEEP)
    ∧ (logEvents [] inputs).length = min inputs.length MAX_EVENTS_TO_KEEP := by
  have hmain : ∀ l : List (Int × EventInput), List.Pairwise (fun a b => a.1 < b.1) l →
      logEvents [] l = windowOf MAX_EVENTS_TO_KEEP l := by
    intro l hl
    have h0 : windowOf MAX_EVENTS_TO_KEEP ([] : List (Int × EventInput)) = [] := by
      simp [windowOf, entriesOf]
    have h := logEventsBounded_window MAX_EVENTS_TO_KEEP l [] (by simp) hl
    rw [h0] at h
    simpa [logEvents, logEventsBounded] using h
  have hlen : ∀ l : List (Int × EventInput), List.Pairwise (fun a b => a.1 < b.1) l →
      (logEvents [] l).length = l.length - (l.length - MAX_EVENTS_TO_KEEP) := by
    intro l hl
    rw [hmain l hl]
    unfold windowOf entriesOf
    rw [List.length_drop, List.length_map]
  refine ⟨?_, ?_, ?_⟩
  · intro k
    have hk := hlen (inputs.take k)
      (List.Pairwise.sublist (List.take_sublist k inputs) hpw)
    rw [hk]
    omega
  · exact hmain inputs hpw
  · rw [hlen inputs hpw]
    omega

/-- Claim C6 witness: three chronological insertions into the empty store
survive in order, and every intermediate store is within the bound. -/
theorem eventLog_retention_witness :
    logEvents [] [(100, eOverage), (200, eTriggered), (300, eCompleted)]
      = [(100, mkFullEvent eOverage 100), (200, mkFullEvent eTriggered 200),
         (300, mkFullEvent eCompleted 300)]
    ∧ (logEvents [] ([(100, eOverage), (200, eTriggered), (300, eCompleted)].take 2)).length
        ≤ MAX_EVENTS_TO_KEEP := by
  have h := eventLog_retention [(100, eOverage), (200, eTriggered), (300, eCompleted)]
    (by decide)
  refine ⟨(h.2.1).trans ?_, h.1 2⟩
  rfl


/-! ## Claims C7 (max expiry), C8 (reset gate), C9 (credential cache), C10 -/

/-- Claim C7: every max-mode command built by `setRoomToMax` — with or
without a supplied server time — carries mode "max" and the auto-revert
expiry `endtime = base + 60`, where base is the supplied server time when
present and the current wall clock otherwise; a max command is never
emitted without an expiry. -/
theorem setRoomToMax_always_expires (homeId roomId : String)
    (serverTime : Option Int) (now : Int) :
    (setRoomToMax homeId roomId serverTime now).mode = "max"
    ∧ (setRoomToMax homeId roomId serverTime now).endtime
        = some (serverTime.getD now + 60) := by
  cases serverTime <;> simp [setRoomToMax, setRoomThermPoint]

/-- Claim C8: the reset endpoint acts only after authentication and
payload validation.  A missing signature header, or one failing
verification, yields the unauthorized response with an EMPTY action trace
(no vendor call, no log write); an authenticated request whose parsed
payload lacks (or carries a falsy) homeId or roomId yields the client
error, again with an empty trace. -/
theorem resetHandler_gate (env : ResetEnv) (rawBody : String)
    (parsed : Option ParsedResetPayload) :
    (resetHandler env none rawBody parsed = (.unauthorized, []))
    ∧ (∀ sig, env.verifySignature sig rawBody = false →
        resetHandler env (some sig) rawBody parsed = (.unauthorized, []))
    ∧ (∀ sig p, env.verifySignature sig rawBody = true → parsed = some p →
        (falsy p.homeId || falsy p.roomId) = true →
        resetHandler env (some sig) rawBody parsed = (.invalidPayload, [])) := by
  refine ⟨rfl, ?_, ?_⟩
  · intro sig hv
    simp [resetHandler, hv]
  · intro sig p hv hp hf
    subst hp
    simp [resetHandler, hv, hf]

/-- Claim C8 witness: the gate theorem at a concrete environment — missing
header, bad signature, and an authenticated payload without roomId. -/
theorem resetHandler_gate_witness :
    resetHandler resetEnvOk none "raw-body" (some pFull) = (.unauthorized, [])
    ∧ resetHandler resetEnvOk (some "bad-sig") "raw-body" (some pFull) = (.unauthorized, [])
    ∧ resetHandler resetEnvOk (some "good-sig") "raw-body" (some pNoRoom)
        = (.invalidPayload, []) := by
  have h1 := resetHandler_gate resetEnvOk "raw-body" (some pFull)
  have h2 := resetHandler_gate resetEnvOk "raw-body" (some pNoRoom)
  exact ⟨h1.1, h1.2.1 "bad-sig" rfl, h2.2.2 "good-sig" pNoRoom rfl rfl rfl⟩

/-- Claim C9: on a cache miss `getAccessToken` exchanges the PREFERRED
refresh token — the rotated value from the shared store when one is
stored (the bootstrap-configured token is only a fallback) — stores the
new access token under the fixed 10000 s TTL, which is strictly below the
real-world expiry of the token whenever that expiry exceeds 10000 s (as the
3-hour, 10800 s vendor tokens do), and persists a returned rotated
refresh token so that subsequent refreshes read exactly that value. -/
theorem getAccessToken_cache_miss (st : TokenStore) (config : NetatmoConfig)
    (oauthExchange : String → Except String NetatmoTokenResponse)
    (resp : NetatmoTokenResponse)
    (hmiss : truthy (st.accessToken.map Prod.fst) = none)
    (hex : oauthExchange (getRefreshToken st config) = .ok resp)
    (hrot : resp.refresh_token ≠ "")
    (httl : ACCESS_TOKEN_TTL < resp.expires_in) :
    getAccessToken st config oauthExchange
      = .ok (resp.access_token,
             { accessToken := some (resp.access_token, ACCESS_TOKEN_TTL)
               refreshToken := some resp.refresh_token })
    ∧ ACCESS_TOKEN_TTL < resp.expires_in
    ∧ getRefreshToken
        { accessToken := some (resp.access_token, ACCESS_TOKEN_TTL)
          refreshToken := some resp.refresh_token } config = resp.refresh_token
    ∧ (∀ r, truthy st.refreshToken = some r → getRefreshToken st config = r) := by
  refine ⟨?_, httl, ?_, ?_⟩
  · simp [getAccessToken, hmiss, hex, hrot]
  · simp [getRefreshToken, truthy, hrot]
  · intro r hr
    simp [getRefreshToken, hr]

/-- Claim C9 witness: a miss against a store holding a rotated refresh
token, exchanged at a vendor accepting exactly that rotated value. -/
theorem getAccessToken_cache_miss_witness :
    getAccessToken storeRotated cfgBoot oauthRotating
      = .ok ("fresh-access",
             { accessToken := some ("fresh-access", ACCESS_TOKEN_TTL)
               refreshToken := some "next-refresh" }) := by
  have h := getAccessToken_cache_miss storeRotated cfgBoot oauthRotating
    ⟨"fresh-access", "next-refresh", 10800⟩ rfl rfl (by decide) (by decide)
  exact h.1

/-- Claim C10: when the fresh home-status read of the authenticated reset
handler has no room matching the roomId of the payload, or that room has no
measured temperature, the handler does not fail: it still commands home
mode, logs `reset_completed` with currentTemp = 0 and the original
setpoint from the payload, and answers a completion summary with
currentTemp = 0. -/
theorem resetHandler_missing_room (env : ResetEnv) (sig rawBody : String)
    (p : ParsedResetPayload) (h r : String) (status : HomeStatusBody)
    (hv : env.verifySignature sig rawBody = true)
    (hh : p.homeId = some h) (hr : p.roomId = some r)
    (hhne : ¬ h = "") (hrne : ¬ r = "")
    (hst : env.homeStatus h = .ok status)
    (hmiss : ((getRoomFromStatus status r).bind
        fun rm => rm.therm_measured_temperature) = none)
    (hsetHome : env.setHome h r = .ok ())
    (hlog : env.logE "reset_completed" h r 0 p.originalSetpoint = .ok ()) :
    resetHandler env (some sig) rawBody (some p)
      = (.completed h r 0 p.originalSetpoint,
         [Action.getStatus h, Action.setHome h r,
          Action.logEvent "reset_completed" h r 0 p.originalSetpoint]) := by
  simp [resetHandler, hv, hh, hr, falsy, hhne, hrne, hst, hmiss, hsetHome, hlog]

/-- Claim C10 witness: an authenticated callback for room "r1" against a
home status that only knows room "other" completes with currentTemp = 0. -/
theorem resetHandler_missing_room_witness :
    resetHandler resetEnvNoRoom (some "good-sig") "raw-body" (some pFull)
      = (.completed "h1" "r1" 0 19,
         [Action.getStatus "h1", Action.setHome "h1" "r1",
          Action.logEvent "reset_completed" "h1" "r1" 0 19]) :=
  resetHandler_missing_room resetEnvNoRoom "good-sig" "raw-body" pFull "h1" "r1"
    ⟨[⟨"other", some 18⟩]⟩ rfl rfl rfl (by decide) (by decide) rfl rfl rfl rfl

end NetatmoTemp
